import Mathlib

/-!
Verification of the RAG (Retrieval-Augmented Generation) pipeline of the
physical-ai-textbook backend, as a shallow embedding of
`src/backend/src/services/{prompts,rag,qdrant,gemini}.py`.

External collaborators (the embedding provider, the Qdrant vector store and
the Gemini generation model) are modelled as explicit parameters: an
`Except`-valued outcome for the embedding call, a function from the issued
query to an `Except`-valued result list for vector search, and a function
from the assembled message list to an `Except`-valued answer (or to a chunk
sequence with an optional terminal error) for generation.  Python strings are
`String`, floats are `Rat`, Python `None` is `Option.none`, raised exceptions
are `Except.error`, and Python truthiness of optional strings / lists is made
explicit (`strTruthy`, `List.isEmpty`).
-/

namespace PhysAI

/-! ## Data model (`rag.py`, `qdrant.py`, `prompts.py`) -/

/-- One model-facing conversation message: `{"role": ..., "parts": [...]}`. -/
structure Message where
  role : String
  parts : List String
deriving DecidableEq, Repr

/-- One prior chat turn as supplied by the caller: `{"role": ..., "content": ...}`. -/
structure HistoryMsg where
  role : String
  content : String
deriving DecidableEq, Repr

/-- A context-chunk dictionary as produced by `convert_results_to_chunks`. -/
structure ContextChunk where
  text : String
  module_id : String
  chapter_id : String
  section_title : String
deriving DecidableEq, Repr

/-- `SearchResult` from `qdrant.py`. -/
structure SearchResult where
  chunk_id : String
  score : Rat
  text : String
  module_id : String
  chapter_id : String
  section_title : String
deriving DecidableEq, Repr

/-- `RAGSource` from `rag.py` (its `to_dict` is a field-for-field projection,
so the dictionary form is identified with the structure itself). -/
structure RAGSource where
  module_id : String
  chapter_id : String
  «section» : String
  score : Rat
deriving DecidableEq, Repr

/-- `RAGResponse` from `rag.py`. -/
structure RAGResponse where
  answer : String
  sources : List RAGSource
  input_tokens : Nat
  output_tokens : Nat
deriving DecidableEq, Repr

/-- An error raised by an external provider call (embedding, search or
generation); the payload is the exception message. -/
structure ProviderError where
  msg : String
deriving DecidableEq, Repr

/-- Python truthiness of an `Optional[str]`: `None` and `""` are falsy. -/
def strTruthy : Option String → Bool
  | none => false
  | some s => !(s == "")

/-! ## Prompt templates (`prompts.py`) -/

/-- `RAG_SYSTEM_PROMPT` from `prompts.py`. -/
def RAG_SYSTEM_PROMPT : String :=
  "You are an AI teaching assistant for a Physical AI & Humanoid Robotics textbook.\n\nYour role is to help students understand concepts from the textbook content. You should:\n1. Provide clear, educational explanations suitable for university students\n2. Reference specific chapters and sections when citing information\n3. Use examples from the textbook when available\n4. Acknowledge when a topic is not covered in the provided context\n\nGuidelines:\n- Be concise but thorough\n- Use technical terminology appropriately with explanations\n- Encourage deeper learning by suggesting related topics in the textbook\n- If the question is unclear, ask for clarification"

/-- The fixed acknowledgment message of `build_rag_prompt`. -/
def INITIAL_ACK : String :=
  "I understand. I\x27m ready to help students learn about Physical AI and Humanoid Robotics based on the textbook content you provide."

/-- The fixed acknowledgment message of `build_followup_prompt`. -/
def FOLLOWUP_ACK : String :=
  "I understand. I\x27m ready to continue helping with questions about Physical AI and Humanoid Robotics."

/-- `RAG_CONTEXT_TEMPLATE.format(context=context)` from `prompts.py`. -/
def rag_context_block (context : String) : String :=
  "## Retrieved Context from Textbook\n\n" ++ context ++ "\n\n---\n\nBased on the above context from the Physical AI textbook, answer the following question.\nIf the information is not in the context, clearly state that the topic is not covered in the available materials."

/-- `SELECTION_CONTEXT_TEMPLATE.format(selected_text=.., chapter_reference=..)`. -/
def selection_block (selected_text chapter_reference : String) : String :=
  "## Selected Text\n\nThe student has highlighted the following text and is asking about it:\n\n> " ++ selected_text ++ "\n\nFrom: " ++ chapter_reference ++ "\n\n---\n\nPlease explain or answer questions about this specific selection."

/-- `NO_CONTEXT_RESPONSE` from `prompts.py`. -/
def NO_CONTEXT_RESPONSE : String :=
  "I don\x27t have specific information about that topic in my current context from the Physical AI textbook.\n\nThis could mean:\n1. The topic isn\x27t covered in the textbook chapters I have access to\n2. The question might need to be rephrased to match the textbook content\n3. You might want to browse the relevant module directly\n\nWould you like me to suggest related topics from the textbook that I can help with?"

/-- The `[module / chapter / section]` source tag of `build_rag_prompt`. -/
def source_tag (c : ContextChunk) : String :=
  "[" ++ c.module_id ++ " / " ++ c.chapter_id ++ " / " ++ c.section_title ++ "]"

/-- The `context_text` accumulation loop of `build_rag_prompt`
(`enumerate(context_chunks, 1)`). -/
def initial_context_text (chunks : List ContextChunk) : String :=
  String.join (chunks.enum.map fun ic =>
    "\n### Source " ++ toString (ic.1 + 1) ++ ": " ++ source_tag ic.2 ++ "\n\n" ++ ic.2.text ++ "\n")

/-- `build_rag_prompt(query, context_chunks, selected_text, chapter_id)` from
`prompts.py`.  The two fixed system messages come first; then the retrieved
context block (if `context_chunks` is non-empty) and the selection block (if
`selected_text` is truthy) are joined with a blank line and the question is
appended; the combined text is the single part of the final user message. -/
def build_rag_prompt (query : String) (context_chunks : List ContextChunk)
    (selected_text : Option String) (chapter_id : Option String) : List Message :=
  let sys : List Message :=
    [⟨"user", [RAG_SYSTEM_PROMPT]⟩, ⟨"model", [INITIAL_ACK]⟩]
  let context_parts : List String :=
    (if context_chunks.isEmpty then [] else [rag_context_block (initial_context_text context_chunks)])
      ++ (if strTruthy selected_text then
            [selection_block (selected_text.getD "")
              (if strTruthy chapter_id then chapter_id.getD "" else "Selected content")]
          else [])
  let user_content : String :=
    (if context_parts.isEmpty then "" else String.intercalate "\n\n" context_parts)
      ++ "\n\n## Question\n\n" ++ query
  sys ++ [⟨"user", [user_content]⟩]

/-- The `context_text` accumulation loop of `build_followup_prompt`. -/
def followup_context_text (chunks : List ContextChunk) : String :=
  String.join (chunks.enum.map fun ic =>
    "\n### Additional Context " ++ toString (ic.1 + 1) ++ ": [" ++ ic.2.module_id
      ++ " / " ++ ic.2.chapter_id ++ "]\n\n" ++ ic.2.text ++ "\n")

/-- `build_followup_prompt(query, chat_history, context_chunks)` from
`prompts.py`.  Every history role other than `"user"` is normalized to
`"model"`.  `context_chunks` is optional and Python-falsy values (`None`,
`[]`) contribute nothing. -/
def build_followup_prompt (query : String) (chat_history : List HistoryMsg)
    (context_chunks : Option (List ContextChunk)) : List Message :=
  let sys : List Message :=
    [⟨"user", [RAG_SYSTEM_PROMPT]⟩, ⟨"model", [FOLLOWUP_ACK]⟩]
  let histMsgs : List Message := chat_history.map fun m =>
    ⟨if m.role == "user" then "user" else "model", [m.content]⟩
  let user_content : String :=
    (match context_chunks with
      | some cs =>
          if cs.isEmpty then ""
          else "## Additional Context\n\n" ++ followup_context_text cs ++ "\n\n---\n\n"
      | none => "")
      ++ "## Follow-up Question\n\n" ++ query
  sys ++ histMsgs ++ [⟨"user", [user_content]⟩]

/-! ## RAG orchestrator (`rag.py`) -/

/-- `retrieve_context` from `rag.py`: the whole `try` block — the embedding
call followed by the vector search — is guarded by a single
`except Exception: return []`, so a failure of either step yields the empty
result list.  The two external calls are passed in as their per-request
outcomes: `embedOutcome` is the result of `generate_query_embedding(query)`
and `searchOutcome v` the result of `search_similar(v, ...)` (the
module/chapter filters and the limit are closed over by `searchOutcome`). -/
def retrieve_context (embedOutcome : Except ProviderError (List Rat))
    (searchOutcome : List Rat → Except ProviderError (List SearchResult)) :
    List SearchResult :=
  match embedOutcome with
  | .error _ => []
  | .ok v =>
    match searchOutcome v with
    | .error _ => []
    | .ok rs => rs

/-- `convert_results_to_chunks` from `rag.py`. -/
def convert_results_to_chunks (results : List SearchResult) : List ContextChunk :=
  results.map fun r => ⟨r.text, r.module_id, r.chapter_id, r.section_title⟩

/-- `extract_sources` from `rag.py`. -/
def extract_sources (results : List SearchResult) : List RAGSource :=
  results.map fun r => ⟨r.module_id, r.chapter_id, r.section_title, r.score⟩

/-- The external collaborators of one RAG request: the embedding outcome, the
vector-search call, the non-streaming generation call and the streaming
generation call (the chunks it yields, paired with `some e` when it raises
after those chunks and `none` when it completes normally). -/
structure RAGEnv where
  embed : Except ProviderError (List Rat)
  search : List Rat → Except ProviderError (List SearchResult)
  generate : List Message → Except ProviderError (String × Nat × Nat)
  generateStream : List Message → List String × Option ProviderError

/-- The prompt-building step shared by `generate_rag_response` and
`stream_rag_response`: `build_followup_prompt` when `chat_history` is truthy
(with `context_chunks if results else None`), else `build_rag_prompt`. -/
def built_messages (query : String) (chapter_id selected_text : Option String)
    (chat_history : List HistoryMsg) (results : List SearchResult) : List Message :=
  let context_chunks := convert_results_to_chunks results
  if chat_history.isEmpty then
    build_rag_prompt query context_chunks selected_text chapter_id
  else
    build_followup_prompt query chat_history
      (if results.isEmpty then none else some context_chunks)

/-- The outcome of `generate_rag_response`, additionally recording whether
the prompt-building and generation steps were reached (`generation_invoked`),
i.e. whether the no-context short-circuit was *not* taken. -/
structure GenResult where
  response : RAGResponse
  generation_invoked : Bool
deriving DecidableEq, Repr

/-- `generate_rag_response` after the retrieval step: the code from
`sources = extract_sources(results)` onward. -/
def rag_after_retrieve (results : List SearchResult) (query : String)
    (chapter_id selected_text : Option String) (chat_history : List HistoryMsg)
    (generate : List Message → Except ProviderError (String × Nat × Nat)) :
    Except ProviderError GenResult :=
  if results.isEmpty && !strTruthy selected_text then
    .ok ⟨⟨NO_CONTEXT_RESPONSE, extract_sources results, 0, 0⟩, false⟩
  else
    match generate (built_messages query chapter_id selected_text chat_history results) with
    | .error e => .error e
    | .ok (answer, it, ot) => .ok ⟨⟨answer, extract_sources results, it, ot⟩, true⟩

/-- `generate_rag_response` from `rag.py` (the retrieval filters are closed
over by `env.search`). -/
def generate_rag_response (env : RAGEnv) (query : String)
    (chapter_id selected_text : Option String) (chat_history : List HistoryMsg) :
    Except ProviderError GenResult :=
  rag_after_retrieve (retrieve_context env.embed env.search)
    query chapter_id selected_text chat_history env.generate

/-- The tagged streaming events of `stream_rag_response` (`{"type": ...,
"data": ...}` dictionaries; `done` carries `None`). -/
inductive StreamEvent where
  | sources (data : List RAGSource)
  | chunk (data : String)
  | done
deriving DecidableEq, Repr

/-- Event classifiers used to state the stream-shape properties. -/
def StreamEvent.isSources : StreamEvent → Bool
  | .sources _ => true
  | _ => false

def StreamEvent.isChunk : StreamEvent → Bool
  | .chunk _ => true
  | _ => false

def StreamEvent.isDone : StreamEvent → Bool
  | .done => true
  | _ => false

/-- `stream_rag_response` after the retrieval step.  The Python function is
an async generator; its observable behaviour is the list of events it yields,
paired with `some e` when the generation client raises mid-stream (the
exception propagates out of the generator, so no further event — in
particular no `done` — is yielded) and `none` when the stream completes. -/
def stream_after_retrieve (results : List SearchResult) (query : String)
    (chapter_id selected_text : Option String) (chat_history : List HistoryMsg)
    (generateStream : List Message → List String × Option ProviderError) :
    List StreamEvent × Option ProviderError :=
  if results.isEmpty && !strTruthy selected_text then
    ([StreamEvent.sources (extract_sources results),
      StreamEvent.chunk NO_CONTEXT_RESPONSE, StreamEvent.done], none)
  else
    match generateStream (built_messages query chapter_id selected_text chat_history results) with
    | (chunks, none) =>
        (StreamEvent.sources (extract_sources results)
          :: (chunks.map StreamEvent.chunk ++ [StreamEvent.done]), none)
    | (chunks, some e) =>
        (StreamEvent.sources (extract_sources results)
          :: chunks.map StreamEvent.chunk, some e)

/-- `stream_rag_response` from `rag.py`. -/
def stream_rag_response (env : RAGEnv) (query : String)
    (chapter_id selected_text : Option String) (chat_history : List HistoryMsg) :
    List StreamEvent × Option ProviderError :=
  stream_after_retrieve (retrieve_context env.embed env.search)
    query chapter_id selected_text chat_history env.generateStream

/-! ## Token counting (`gemini.py`) -/

/-- `GeminiChatService.count_tokens` from `gemini.py`: the provider call
`self.model.count_tokens(text)` is modelled by its per-request outcome; on
failure the fallback `len(text) // 4` (floor division) is returned, so the
method never raises (it is a total function). -/
def count_tokens (providerOutcome : Except ProviderError Nat) (text : String) : Nat :=
  match providerOutcome with
  | .ok n => n
  | .error _ => text.length / 4

/-! ## Vector store client (`qdrant.py`) -/

/-- `ContentChunk` from `qdrant.py` (the free-form `metadata` mapping is a
string-to-string association list). -/
structure ContentChunk where
  id : String
  text : String
  module_id : String
  chapter_id : String
  section_title : String
  content_type : String
  position : Nat
  token_count : Nat
  metadata : Option (List (String × String)) := none
deriving DecidableEq, Repr

/-- The Qdrant point payload built by `ContentChunk.to_payload` (the
`metadata` key is present only when `self.metadata` is truthy). -/
structure Payload where
  text : String
  module_id : String
  chapter_id : String
  section_title : String
  content_type : String
  position : Nat
  token_count : Nat
  metadata : Option (List (String × String))
deriving DecidableEq, Repr

/-- `ContentChunk.to_payload` from `qdrant.py`. -/
def ContentChunk.to_payload (c : ContentChunk) : Payload :=
  ⟨c.text, c.module_id, c.chapter_id, c.section_title, c.content_type,
    c.position, c.token_count,
    match c.metadata with
    | some m => if m.isEmpty then none else some m
    | none => none⟩

/-- `PointStruct` as built inside `upsert_chunks`. -/
structure PointStruct where
  id : String
  vector : List Rat
  payload : Payload
deriving DecidableEq, Repr

/-- The errors of the upsert path: `valueError` is the
`ValueError("Number of chunks must match number of embeddings")` raised in
`upsert_chunks` itself; `dimensionMismatch` is the hard rejection by the
vector store of a vector whose length differs from the collection dimension. -/
inductive UpsertError where
  | valueError (msg : String)
  | dimensionMismatch
deriving DecidableEq, Repr

/-- The point list built inside `upsert_chunks` by zipping chunks with their
embedding vectors. -/
def mk_points (chunks : List ContentChunk) (embeddings : List (List Rat)) :
    List PointStruct :=
  List.zipWith (fun c e => PointStruct.mk c.id e c.to_payload) chunks embeddings

/-- Modelled from the spec: the external Qdrant collection, which
`ensure_collection_exists` provisions with a fixed 768-dimension cosine
vector space, rejects an upserted point whose vector length differs from 768
as a hard error — the vector is never truncated or padded (spec §3
invariants, §4.4/§7 `DimensionMismatch`).  Accepted points replace any stored
point with the same id (idempotent upsert keyed by id). -/
def store_upsert (store : List PointStruct) (points : List PointStruct) :
    Except UpsertError (List PointStruct) :=
  if points.all (fun p => p.vector.length == 768) then
    .ok (points.foldl (fun st p => st.filter (fun q => !(q.id == p.id)) ++ [p]) store)
  else
    .error .dimensionMismatch

/-- `upsert_chunks` from `qdrant.py` over the modelled store: the length
check and `ValueError` come first (before any client call, so the store is
untouched), then the zipped points are sent to the store. -/
def upsert_chunks (store : List PointStruct) (chunks : List ContentChunk)
    (embeddings : List (List Rat)) : Except UpsertError (List PointStruct) :=
  if chunks.length ≠ embeddings.length then
    .error (.valueError "Number of chunks must match number of embeddings")
  else
    store_upsert store (mk_points chunks embeddings)

/-- `FieldCondition(key=..., match=MatchValue(value=...))`. -/
structure FieldCondition where
  key : String
  value : String
deriving DecidableEq, Repr

/-- The search request that `search_similar` hands to
`client.search(...)`: the query vector, the optional `must`-conjunction
filter, the limit and the score threshold, exactly as passed. -/
structure SearchQuery where
  query_vector : List Rat
  query_filter : Option (List FieldCondition)
  limit : Int
  score_threshold : Rat
deriving DecidableEq, Repr

/-- A scored point returned by the Qdrant client; payload fields are read
with `result.payload.get(key, "")`, so each is optional. -/
structure ScoredPoint where
  id : String
  score : Rat
  text : Option String
  module_id : Option String
  chapter_id : Option String
  section_title : Option String
deriving DecidableEq, Repr

/-- The per-result conversion at the end of `search_similar`. -/
def mk_search_result (r : ScoredPoint) : SearchResult :=
  ⟨r.id, r.score, r.text.getD "", r.module_id.getD "", r.chapter_id.getD "",
    r.section_title.getD ""⟩

/-- `search_similar` from `qdrant.py`, with the external Qdrant call as the
parameter `client`.  The function performs no local validation of `limit`:
it builds the filter conditions, always issues the network search with the
arguments as given, and maps the response.  Besides the mapped results it
returns the `SearchQuery` actually sent over the network, so that what was
issued is observable. -/
def search_similar (client : SearchQuery → List ScoredPoint)
    (query_embedding : List Rat) (limit : Int)
    (module_id chapter_id content_type : Option String)
    (score_threshold : Rat) : List SearchResult × SearchQuery :=
  let conditions : List FieldCondition :=
    (if strTruthy module_id then [⟨"module_id", module_id.getD ""⟩] else [])
      ++ (if strTruthy chapter_id then [⟨"chapter_id", chapter_id.getD ""⟩] else [])
      ++ (if strTruthy content_type then [⟨"content_type", content_type.getD ""⟩] else [])
  let query_filter := if conditions.isEmpty then none else some conditions
  let q : SearchQuery := ⟨query_embedding, query_filter, limit, score_threshold⟩
  ((client q).map mk_search_result, q)

/-! ## Concrete instances used as witnesses and counterexamples -/

/-- A request environment whose embedding call fails; the remaining
collaborators behave normally. -/
def embedFailEnv : RAGEnv where
  embed := .error ⟨"embedding provider down"⟩
  search := fun _ => .ok []
  generate := fun _ => .ok ("an answer", 3, 5)
  generateStream := fun _ => (["an answer"], none)

/-- A request environment with a healthy embedding, zero search results, and
a generation client that fails as soon as streaming starts. -/
def streamFailEnv : RAGEnv where
  embed := .ok [1]
  search := fun _ => .ok []
  generate := fun _ => .error ⟨"generation failure"⟩
  generateStream := fun _ => ([], some ⟨"generation failure"⟩)

/-- A vector-search client returning one fixed scored point. -/
def sample_client : SearchQuery → List ScoredPoint :=
  fun _ => [⟨"p1", 9/10, some "t", some "m", some "ch", some "s"⟩]

/-- A sample content chunk. -/
def sample_chunk : ContentChunk :=
  ⟨"c1", "some text", "m1", "ch1", "s1", "explanation", 0, 3, none⟩

/-- A 400-character string. -/
def four_hundred_chars : String := String.mk (List.replicate 400 (Char.ofNat 97))

/-! ## Theorems -/

/-- C6, counterexample: `build_rag_prompt` with empty context chunks and no
selected text ends in a user message, but its content is the Question
template wrapped around the query, not the literal query: for the query
`"hi"` the last message content is `"\n\n## Question\n\nhi"`, which differs
from `"hi"`. -/
theorem c6_counterexample :
    (build_rag_prompt "hi" [] none none).getLast? =
      some ⟨"user", ["\n\n## Question\n\nhi"]⟩ ∧
    (build_rag_prompt "hi" [] none none).getLast? ≠ some ⟨"user", ["hi"]⟩ :=
  ⟨rfl, by decide⟩

/-- C6, amended: `build_rag_prompt` with empty `context_chunks` and no
`selected_text` returns a non-empty message list whose last message has the
user role and whose content is the fixed Question header followed by the
literal input query (so it contains the query, but is not equal to it). -/
theorem c6_amended_build_initial_empty_context (query : String) :
    build_rag_prompt query [] none none ≠ [] ∧
    (build_rag_prompt query [] none none).getLast? =
      some ⟨"user", ["\n\n## Question\n\n" ++ query]⟩ := by
  refine ⟨?_, rfl⟩
  simp [build_rag_prompt]

/-- C7, counterexample: for history `[{role: user, content: "A"},
{role: assistant, content: "B"}]` and query `"C"`, the messages after the
two-message preamble have role sequence `[user, model, user]` and contents
`"A"`, `"B"` — but the final content is the Follow-up Question template
wrapped around `"C"`, not the literal `"C"`. -/
theorem c7_counterexample :
    (build_followup_prompt "C" [⟨"user", "A"⟩, ⟨"assistant", "B"⟩] none).drop 2 =
      [⟨"user", ["A"]⟩, ⟨"model", ["B"]⟩,
        ⟨"user", ["## Follow-up Question\n\nC"]⟩] ∧
    (build_followup_prompt "C" [⟨"user", "A"⟩, ⟨"assistant", "B"⟩] none).drop 2 ≠
      [⟨"user", ["A"]⟩, ⟨"model", ["B"]⟩, ⟨"user", ["C"]⟩] :=
  ⟨rfl, by decide⟩

/-- C7, amended: `build_followup_prompt` preserves history order and
normalizes roles — after the fixed two-message preamble the messages are
exactly the history turns in order, each with role `"user"` kept and every
other role normalized to `"model"` and with its content verbatim, followed by
one final user message whose content is the fixed Follow-up Question header
followed by the literal query (it contains the query but is not the bare
query). -/
theorem c7_amended_followup_preserves_history (query : String)
    (hist : List HistoryMsg) :
    (build_followup_prompt query hist none).drop 2 =
      hist.map (fun m => ⟨if m.role == "user" then "user" else "model", [m.content]⟩)
        ++ [⟨"user", ["## Follow-up Question\n\n" ++ query]⟩] :=
  rfl

/-- C8, counterexample: the provider-failure fallback of `count_tokens` is
floor division `len(text) // 4`, not `ceil(length/4)`: a 5-character text
with a forced provider failure yields `1`, while `ceil(5/4) = 2`. -/
theorem c8_counterexample :
    count_tokens (.error ⟨"forced failure"⟩) "aaaaa" = 1 ∧
    ("aaaaa".length + 3) / 4 = 2 ∧ (1 : Nat) ≠ 2 :=
  ⟨rfl, by decide, by decide⟩

/-- C8, amended: `count_tokens` never raises — it is a total function of the
provider outcome: on provider failure it returns the heuristic
`len(text) // 4` (floor of length/4, which coincides with the ceiling
exactly when the length is a multiple of 4, e.g. 100 for a 400-character
string) instead of propagating the error, and on success it returns the
provider count. -/
theorem c8_amended_count_tokens_total (outcome : Except ProviderError Nat)
    (text : String) :
    (∀ e, outcome = Except.error e → count_tokens outcome text = text.length / 4) ∧
    (∀ n, outcome = Except.ok n → count_tokens outcome text = n) := by
  constructor <;> intro x h <;> subst h <;> rfl

set_option maxRecDepth 4000 in
/-- C8, witness: a 400-character string with a forced provider failure yields
`100`. -/
theorem c8_amended_witness :
    count_tokens (.error ⟨"forced failure"⟩) four_hundred_chars = 100 := by
  have h := (c8_amended_count_tokens_total (.error ⟨"forced failure"⟩)
    four_hundred_chars).1 ⟨"forced failure"⟩ rfl
  rw [h]
  decide

/-- C1: `generate_rag_response` returns the fixed `NO_CONTEXT_RESPONSE`
answer with zero token usage and an empty sources list — without invoking
prompt building and generation — if and only if the retrieval step produced
zero results and no (truthy) `selected_text` was supplied; in every other
case prompt building and generation are invoked and the returned answer is
the generation client's output (with the extracted sources and the reported
usage), a generation failure propagating unchanged.  Quantified over all
queries, filters (closed over by `env.search`), selected texts and chat
histories. -/
theorem c1_no_context_short_circuit (env : RAGEnv) (query : String)
    (chapter_id selected_text : Option String) (chat_history : List HistoryMsg) :
    (generate_rag_response env query chapter_id selected_text chat_history =
        .ok ⟨⟨NO_CONTEXT_RESPONSE, [], 0, 0⟩, false⟩ ↔
      (retrieve_context env.embed env.search = [] ∧
        strTruthy selected_text = false)) ∧
    (¬(retrieve_context env.embed env.search = [] ∧
        strTruthy selected_text = false) →
      (∀ e, env.generate (built_messages query chapter_id selected_text chat_history
            (retrieve_context env.embed env.search)) = .error e →
        generate_rag_response env query chapter_id selected_text chat_history =
          .error e) ∧
      (∀ a it ot, env.generate (built_messages query chapter_id selected_text chat_history
            (retrieve_context env.embed env.search)) = .ok (a, it, ot) →
        generate_rag_response env query chapter_id selected_text chat_history =
          .ok ⟨⟨a, extract_sources (retrieve_context env.embed env.search), it, ot⟩,
            true⟩)) := by
  unfold generate_rag_response rag_after_retrieve
  set R := retrieve_context env.embed env.search with hR
  by_cases hc : (R.isEmpty && !strTruthy selected_text) = true
  · have hre : R = [] := by
      have h1 := ((Bool.and_eq_true _ _).mp hc).1
      exact List.isEmpty_iff.mp h1
    have hst : strTruthy selected_text = false := by
      have h2 := ((Bool.and_eq_true _ _).mp hc).2
      simpa using h2
    rw [if_pos hc]
    refine ⟨⟨fun _ => ⟨hre, hst⟩, fun _ => ?_⟩, fun hn => absurd ⟨hre, hst⟩ hn⟩
    rw [hre]
    simp [extract_sources]
  · rw [if_neg hc]
    have hcond : ¬(R = [] ∧ strTruthy selected_text = false) := by
      rintro ⟨h1, h2⟩
      exact hc (by simp [h1, h2])
    refine ⟨⟨fun h => ?_, fun hcontra => absurd hcontra hcond⟩,
      fun _ => ⟨fun e hg => by rw [hg], fun a it ot hg => by rw [hg]⟩⟩
    exfalso
    cases hg : env.generate (built_messages query chapter_id selected_text chat_history R) with
    | error e => rw [hg] at h; simp at h
    | ok t =>
      obtain ⟨a, it, ot⟩ := t
      rw [hg] at h
      simp at h

/-- C1, witness: with a failed embedding call (hence zero retrieval results)
and no selected text, the pipeline returns the fixed no-context response with
empty sources and zero usage, generation not invoked. -/
theorem c1_witness :
    generate_rag_response embedFailEnv "q" none none [] =
      .ok ⟨⟨NO_CONTEXT_RESPONSE, [], 0, 0⟩, false⟩ :=
  (c1_no_context_short_circuit embedFailEnv "q" none none []).1.mpr ⟨rfl, rfl⟩

/-- C2: for every query whose retrieval step yields zero results and with no
(truthy) `selected_text`, `stream_rag_response` yields exactly three events
in this order and no others: a `sources` event carrying the empty list, a
`chunk` event carrying exactly the fixed `NO_CONTEXT_RESPONSE` text, and a
`done` event, and the stream completes without error. -/
theorem c2_stream_no_context (env : RAGEnv) (query : String)
    (chapter_id selected_text : Option String) (chat_history : List HistoryMsg)
    (hres : retrieve_context env.embed env.search = [])
    (hsel : strTruthy selected_text = false) :
    stream_rag_response env query chapter_id selected_text chat_history =
      ([StreamEvent.sources [], StreamEvent.chunk NO_CONTEXT_RESPONSE,
        StreamEvent.done], none) := by
  unfold stream_rag_response stream_after_retrieve
  rw [hres]
  simp [hsel, extract_sources]

/-- C2, witness: the failed-embedding environment with no selected text
produces exactly the three-event no-context stream. -/
theorem c2_witness :
    stream_rag_response embedFailEnv "q" none none [] =
      ([StreamEvent.sources [], StreamEvent.chunk NO_CONTEXT_RESPONSE,
        StreamEvent.done], none) :=
  c2_stream_no_context embedFailEnv "q" none none [] rfl rfl

/-- A run of `chunk` events contains no `sources` event. -/
theorem countP_chunk_map_isSources (cs : List String) :
    (cs.map StreamEvent.chunk).countP StreamEvent.isSources = 0 := by
  induction cs with
  | nil => rfl
  | cons a t ih => simp [List.countP_cons, StreamEvent.isSources, ih]

/-- A run of `chunk` events contains no `done` event. -/
theorem countP_chunk_map_isDone (cs : List String) :
    (cs.map StreamEvent.chunk).countP StreamEvent.isDone = 0 := by
  induction cs with
  | nil => rfl
  | cons a t ih => simp [List.countP_cons, StreamEvent.isDone, ih]

/-- C3, counterexample: when the generation client fails as soon as streaming
starts (zero retrieval results, a selected text forcing generation), the
exception propagates out of the generator and the emitted event sequence is
just the `sources` event — it contains no `done` event at all, contradicting
the claim that every emitted sequence ends in exactly one `done`. -/
theorem c3_counterexample :
    (stream_rag_response streamFailEnv "q" none (some "sel") []).1 =
      [StreamEvent.sources []] ∧
    (stream_rag_response streamFailEnv "q" none (some "sel") []).2 =
      some ⟨"generation failure"⟩ ∧
    StreamEvent.done ∉ (stream_rag_response streamFailEnv "q" none (some "sel") []).1 :=
  ⟨rfl, rfl, by decide⟩

/-- C3, amended: in every emitted event sequence of `stream_rag_response`
there is exactly one `sources` event and it is the first event (hence it
precedes all `chunk` events); when the stream terminates without error —
including the no-context short-circuit path — there is exactly one `done`
event and it is last; but when the generation client fails mid-stream the
error is propagated and the emitted sequence contains no `done` event. -/
theorem c3_amended_stream_event_shape (env : RAGEnv) (query : String)
    (chapter_id selected_text : Option String) (chat_history : List HistoryMsg)
    (evs : List StreamEvent) (err : Option ProviderError)
    (h : stream_rag_response env query chapter_id selected_text chat_history =
      (evs, err)) :
    evs.countP StreamEvent.isSources = 1 ∧
    evs.head? = some (StreamEvent.sources
      (extract_sources (retrieve_context env.embed env.search))) ∧
    (err = none → evs.countP StreamEvent.isDone = 1 ∧
      evs.getLast? = some StreamEvent.done) ∧
    (err ≠ none → evs.countP StreamEvent.isDone = 0) := by
  unfold stream_rag_response stream_after_retrieve at h
  set R := retrieve_context env.embed env.search with hR
  by_cases hc : (R.isEmpty && !strTruthy selected_text) = true
  · rw [if_pos hc] at h
    injection h with h1 h2
    subst h1
    subst h2
    refine ⟨?_, rfl, fun _ => ⟨?_, rfl⟩, fun hne => absurd rfl hne⟩
    · simp [List.countP_cons, StreamEvent.isSources]
    · simp [List.countP_cons, StreamEvent.isDone]
  · rw [if_neg hc] at h
    cases hgs : env.generateStream
      (built_messages query chapter_id selected_text chat_history R) with
    | mk chunks opt =>
      rw [hgs] at h
      cases opt with
      | none =>
        injection h with h1 h2
        subst h1
        subst h2
        refine ⟨?_, rfl, fun _ => ⟨?_, ?_⟩, fun hne => absurd rfl hne⟩
        · simp [List.countP_cons, List.countP_append, countP_chunk_map_isSources,
            StreamEvent.isSources, StreamEvent.isDone]
        · simp [List.countP_cons, List.countP_append, countP_chunk_map_isDone,
            StreamEvent.isSources, StreamEvent.isDone]
        · rw [← List.cons_append]
          exact List.getLast?_concat _
      | some e =>
        injection h with h1 h2
        subst h1
        subst h2
        refine ⟨?_, rfl, ?_, fun _ => ?_⟩
        · simp [List.countP_cons, countP_chunk_map_isSources, StreamEvent.isSources]
        · intro hn
          exact Option.noConfusion hn
        · simp [List.countP_cons, countP_chunk_map_isDone, StreamEvent.isDone]

/-- C3, witness for the amended statement: on the no-context short-circuit
path the emitted sequence ends in `done`. -/
theorem c3_amended_witness :
    ([StreamEvent.sources [], StreamEvent.chunk NO_CONTEXT_RESPONSE,
      StreamEvent.done] : List StreamEvent).getLast? = some StreamEvent.done :=
  ((c3_amended_stream_event_shape embedFailEnv "q" none none []
    [StreamEvent.sources [], StreamEvent.chunk NO_CONTEXT_RESPONSE, StreamEvent.done]
    none rfl).2.2.1 rfl).2

/-- C4, counterexample: a failed embedding call is *not* propagated to the
caller of `generate_rag_response` / `stream_rag_response` as a pipeline
failure: `retrieve_context` wraps both the embedding call and the vector
search in one `except` that returns zero results, so with a failing embedding
provider (and no selected text) the non-streaming call returns `ok` with the
fixed no-context response, and the stream completes without error. -/
theorem c4_counterexample :
    embedFailEnv.embed = .error ⟨"embedding provider down"⟩ ∧
    generate_rag_response embedFailEnv "q" none none [] =
      .ok ⟨⟨NO_CONTEXT_RESPONSE, [], 0, 0⟩, false⟩ ∧
    (stream_rag_response embedFailEnv "q" none none []).2 = none :=
  ⟨rfl, rfl, rfl⟩

/-- C4, amended: within `retrieve_context` a failure of *either* step — the
embedding call or the vector search — is downgraded locally to zero results;
neither is surfaced to the caller: both `generate_rag_response` and
`stream_rag_response` then behave exactly as on a zero-result retrieval (so
the only provider failure that propagates out of them is a generation
failure). -/
theorem c4_amended_retrieval_downgrade (env : RAGEnv) (query : String)
    (chapter_id selected_text : Option String) (chat_history : List HistoryMsg)
    (h : (∃ e, env.embed = .error e) ∨
      (∃ v e, env.embed = .ok v ∧ env.search v = .error e)) :
    retrieve_context env.embed env.search = [] ∧
    generate_rag_response env query chapter_id selected_text chat_history =
      rag_after_retrieve [] query chapter_id selected_text chat_history
        env.generate ∧
    stream_rag_response env query chapter_id selected_text chat_history =
      stream_after_retrieve [] query chapter_id selected_text chat_history
        env.generateStream := by
  have hret : retrieve_context env.embed env.search = [] := by
    rcases h with ⟨e, he⟩ | ⟨v, e, hv, hs⟩
    · simp [retrieve_context, he]
    · simp [retrieve_context, hv, hs]
  refine ⟨hret, ?_, ?_⟩
  · unfold generate_rag_response
    rw [hret]
  · unfold stream_rag_response
    rw [hret]

/-- C4, witness for the amended statement: the failed-embedding environment
yields zero results and the zero-result pipeline behaviour. -/
theorem c4_amended_witness :
    retrieve_context embedFailEnv.embed embedFailEnv.search = [] ∧
    generate_rag_response embedFailEnv "q" none none [] =
      rag_after_retrieve [] "q" none none [] embedFailEnv.generate ∧
    stream_rag_response embedFailEnv "q" none none [] =
      stream_after_retrieve [] "q" none none [] embedFailEnv.generateStream :=
  c4_amended_retrieval_downgrade embedFailEnv "q" none none []
    (Or.inl ⟨⟨"embedding provider down"⟩, rfl⟩)

/-- The vectors of the points built by `upsert_chunks` are exactly the input
embeddings (when the lengths agree). -/
theorem mk_points_map_vector (chunks : List ContentChunk)
    (embeddings : List (List Rat)) (h : chunks.length = embeddings.length) :
    (mk_points chunks embeddings).map PointStruct.vector = embeddings := by
  induction chunks generalizing embeddings with
  | nil =>
    cases embeddings with
    | nil => rfl
    | cons e es => simp at h
  | cons c cs ih =>
    cases embeddings with
    | nil => simp at h
    | cons e es =>
      simp only [mk_points, List.zipWith, List.map]
      rw [show (List.zipWith (fun c e => PointStruct.mk c.id e c.to_payload) cs es) =
        mk_points cs es from rfl]
      rw [ih es (by simpa using h)]

/-- C5: `upsert_chunks` fails with the length-mismatch `ValueError` whenever
`len(chunks) != len(embeddings)` — raised before any store interaction, so
nothing is stored — and, for every embedding vector whose dimensionality is
not 768, the upsert is a hard `DimensionMismatch` error from the
768-provisioned collection; on success every vector had dimensionality 768
and the vectors sent to the store are the input embeddings verbatim (never
truncated or padded). -/
theorem c5_upsert_dimension_checks (store : List PointStruct)
    (chunks : List ContentChunk) (embeddings : List (List Rat)) :
    (chunks.length ≠ embeddings.length →
      upsert_chunks store chunks embeddings =
        .error (.valueError "Number of chunks must match number of embeddings")) ∧
    (∀ v ∈ embeddings, chunks.length = embeddings.length → v.length ≠ 768 →
      upsert_chunks store chunks embeddings = .error .dimensionMismatch) ∧
    (∀ store2, upsert_chunks store chunks embeddings = .ok store2 →
      (mk_points chunks embeddings).map PointStruct.vector = embeddings ∧
      ∀ v ∈ embeddings, v.length = 768) := by
  refine ⟨fun hne => by simp [upsert_chunks, hne], ?_, ?_⟩
  · intro v hv hlen h768
    have hvmem : v ∈ (mk_points chunks embeddings).map PointStruct.vector := by
      rw [mk_points_map_vector chunks embeddings hlen]
      exact hv
    obtain ⟨p, hp, hpv⟩ := List.mem_map.mp hvmem
    have hall : (mk_points chunks embeddings).all
        (fun p => p.vector.length == 768) = false := by
      rw [List.all_eq_false]
      exact ⟨p, hp, by simp [hpv, h768]⟩
    simp [upsert_chunks, hlen, store_upsert, hall]
  · intro store2 hok
    by_cases hlen : chunks.length = embeddings.length
    · refine ⟨mk_points_map_vector chunks embeddings hlen, ?_⟩
      intro v hv
      rw [upsert_chunks, if_neg (by simp [hlen])] at hok
      unfold store_upsert at hok
      by_cases hall : (mk_points chunks embeddings).all
          (fun p => p.vector.length == 768) = true
      · have hvmem : v ∈ (mk_points chunks embeddings).map PointStruct.vector := by
          rw [mk_points_map_vector chunks embeddings hlen]
          exact hv
        obtain ⟨p, hp, hpv⟩ := List.mem_map.mp hvmem
        have := (List.all_eq_true.mp hall) p hp
        rw [← hpv]
        simpa using this
      · rw [if_neg hall] at hok
        exact Except.noConfusion hok
    · rw [upsert_chunks, if_pos hlen] at hok
      exact Except.noConfusion hok

/-- C5, witness: a single chunk with a 1-dimensional vector is rejected with
`DimensionMismatch`; a chunk/vector count mismatch is rejected with the
length `ValueError`. -/
theorem c5_witness :
    upsert_chunks [] [sample_chunk] [[1]] = .error .dimensionMismatch ∧
    upsert_chunks [] [sample_chunk] [[1], [2]] =
      .error (.valueError "Number of chunks must match number of embeddings") :=
  ⟨(c5_upsert_dimension_checks [] [sample_chunk] [[1]]).2.1 [1] (by decide)
      (by decide) (by decide),
    (c5_upsert_dimension_checks [] [sample_chunk] [[1], [2]]).1 (by decide)⟩

/-- C9, counterexample: `search_similar` does not reject `limit <= 0` — with
`limit = 0` it still issues the network search (the query actually sent
carries `limit = 0` and an empty filter) and returns the mapped client
response instead of failing at the client boundary. -/
theorem c9_counterexample :
    (search_similar sample_client [1] 0 none none none (7/10)).2.limit = 0 ∧
    (search_similar sample_client [1] 0 none none none (7/10)).2.query_filter =
      none ∧
    (search_similar sample_client [1] 0 none none none (7/10)).1 =
      [⟨"p1", 9/10, "t", "m", "ch", "s"⟩] :=
  ⟨rfl, rfl, rfl⟩

/-- C9, amended: `search_similar` performs no local validation of `limit` at
the Vector Search Client boundary: for every query vector, filter combination
and threshold, the network call is always issued with `limit` forwarded
unchanged (in particular for `limit <= 0`), and the returned list is the
mapped client response. -/
theorem c9_amended_no_limit_validation (client : SearchQuery → List ScoredPoint)
    (v : List Rat) (limit : Int)
    (module_id chapter_id content_type : Option String) (thr : Rat) :
    (search_similar client v limit module_id chapter_id content_type thr).2.limit =
      limit ∧
    (search_similar client v limit none none none thr).2 = ⟨v, none, limit, thr⟩ ∧
    (search_similar client v limit none none none thr).1 =
      (client ⟨v, none, limit, thr⟩).map mk_search_result :=
  ⟨rfl, rfl, rfl⟩

/-- C10: on the follow-up path a supplied `selected_text` is silently
dropped: whenever `chat_history` is non-empty the prompt is built by
`build_followup_prompt`, which takes no selected-text parameter, so the
outputs of `generate_rag_response` and `stream_rag_response` are invariant
under changing the (truthy) selected text; and when retrieval returned zero
results — the case where the selected text was the only thing preventing the
no-context short-circuit — the messages sent to the generation client are
`build_followup_prompt query chat_history None`, with no grounding at all. -/
theorem c10_followup_drops_selected_text (env : RAGEnv) (query : String)
    (chapter_id : Option String) (chat_history : List HistoryMsg)
    (st st2 : Option String) (hh : chat_history ≠ [])
    (h1 : strTruthy st = true) (h2 : strTruthy st2 = true) :
    built_messages query chapter_id st chat_history
        (retrieve_context env.embed env.search) =
      build_followup_prompt query chat_history
        (if (retrieve_context env.embed env.search).isEmpty then none
          else some (convert_results_to_chunks
            (retrieve_context env.embed env.search))) ∧
    generate_rag_response env query chapter_id st chat_history =
      generate_rag_response env query chapter_id st2 chat_history ∧
    stream_rag_response env query chapter_id st chat_history =
      stream_rag_response env query chapter_id st2 chat_history := by
  have hbm : ∀ s : Option String, built_messages query chapter_id s chat_history
      (retrieve_context env.embed env.search) =
      build_followup_prompt query chat_history
        (if (retrieve_context env.embed env.search).isEmpty then none
          else some (convert_results_to_chunks
            (retrieve_context env.embed env.search))) := by
    intro s
    unfold built_messages
    rw [if_neg (by simp [List.isEmpty_iff, hh])]
  refine ⟨hbm st, ?_, ?_⟩
  · unfold generate_rag_response rag_after_retrieve
    rw [hbm st, hbm st2, h1, h2]
  · unfold stream_rag_response stream_after_retrieve
    rw [hbm st, hbm st2, h1, h2]

/-- C10, witness: with zero retrieval results, a one-turn history and two
different selected texts, the non-streaming pipeline output is the same. -/
theorem c10_witness :
    generate_rag_response embedFailEnv "q" none (some "S1") [⟨"user", "A"⟩] =
      generate_rag_response embedFailEnv "q" none (some "S2") [⟨"user", "A"⟩] :=
  (c10_followup_drops_selected_text embedFailEnv "q" none [⟨"user", "A"⟩]
    (some "S1") (some "S2") (by decide) rfl rfl).2.1

end PhysAI
